import Mathlib

/-!
Shallow embedding of the `apprentice` terminal agent (Rust) for checking its
natural-language specification.  The definitions below are line-by-line
translations of the repository sources:

* `apprentice_lib/src/llm/{messages,util,openai,anthropic,gcp,llmchat}.rs`
* `apprentice_lib/src/{config,error}.rs`, `apprentice_lib/src/tools/tool.rs`
* `apprentice/src/{agent,util,error}.rs`, `apprentice/src/tools/{shell,help}.rs`

JSON values (`serde_json::Value`) are modelled by `JVal`; objects are
association lists in insertion order (the crate keeps key order, and key
order is irrelevant to every statement below except where it is exactly what
is being proved).  `f64` sampling parameters are modelled by `F64`, an opaque
code together with the one property the code inspects (`is_finite`).
External collaborators (HTTP transport, `serde_json::from_str`, the process
spawner, the terminal) are passed in as explicit arguments.
-/

namespace Apprentice

/-- Model of an `f64` value: an opaque identity plus its finiteness, the only
property the source inspects (`set_f64_param` checks `is_finite`). -/
structure F64 where
  finite : Bool
  code : Int
deriving DecidableEq, Repr

/-- Model of `serde_json::Value`.  Objects are association lists in insertion
order, mirroring the map behaviour the adapters rely on. -/
inductive JVal where
  | null
  | bool (b : Bool)
  | int (n : Int)
  | fnum (f : F64)
  | str (s : String)
  | arr (elems : List JVal)
  | obj (fields : List (String × JVal))

/-- Association-list lookup (first match), as `serde_json` map lookup. -/
def lookupKey : List (String × JVal) → String → Option JVal
  | [], _ => none
  | (k, v) :: rest, key => if k = key then some v else lookupKey rest key

/-- `payload[key] = v` on a JSON object: replace an existing entry in place,
otherwise append, as the order-preserving `serde_json` map insert does. -/
def setKey : List (String × JVal) → String → JVal → List (String × JVal)
  | [], key, v => [(key, v)]
  | (k, w) :: rest, key, v =>
      if k = key then (k, v) :: rest else (k, w) :: setKey rest key v

/-- Whether a JSON object has a top-level key. -/
def hasKey (fields : List (String × JVal)) (key : String) : Bool :=
  (lookupKey fields key).isSome

namespace JVal

/-- `value[key]` (the `Index` impl): `null` when the value is not an object
or the key is missing. -/
def idx : JVal → String → JVal
  | .obj fields, key => (lookupKey fields key).getD .null
  | _, _ => .null

/-- `value.get(key)` : `Some` only on objects holding the key. -/
def getKey : JVal → String → Option JVal
  | .obj fields, key => lookupKey fields key
  | _, _ => none

/-- `value.as_str()`. -/
def asStr : JVal → Option String
  | .str s => some s
  | _ => none

/-- `value.as_array()`. -/
def asArr : JVal → Option (List JVal)
  | .arr elems => some elems
  | _ => none

/-- `value.as_object()`: the entries in map order. -/
def asObj : JVal → Option (List (String × JVal))
  | .obj fields => some fields
  | _ => none

/-- `value.is_null()`. -/
def isNull : JVal → Bool
  | .null => true
  | _ => false

/-- `value.is_object()`. -/
def isObj : JVal → Bool
  | .obj _ => true
  | _ => false

/-- `value.is_string()`. -/
def isStr : JVal → Bool
  | .str _ => true
  | _ => false

end JVal

/-- `llm::messages::Role` (ordinal-stable). -/
inductive Role where
  | system
  | model
  | user
deriving DecidableEq, Repr

/-- `config::ModelProvider`. -/
inductive ModelProvider where
  | openAI
  | anthropic
  | gcp
deriving DecidableEq, Repr

/-- `apprentice_lib::error::Error` (the `#[cfg(test)]` variant omitted).
`LLMCallError` wraps the transport (`reqwest`) failure text, `LLMJsonError`
the `serde_json` failure text. -/
inductive Error where
  | MissingArgError (msg : String)
  | LLMCallError (msg : String)
  | LLMJsonError (msg : String)
  | LLMResponseError (msg : String)
  | Error (msg : String)
  | LLMErrorMessage (msg : String)
deriving DecidableEq, Repr

/-- `llm::messages::Text`. -/
structure TextMsg where
  role : Role
  message : String

/-- `llm::messages::ToolCall`; `params` is the `Vec<ToolParam>` of
(name, value) pairs. -/
structure ToolCallMsg where
  call_id : String
  name : String
  params : List (String × JVal)

/-- `llm::messages::ToolResult`. -/
structure ToolResultMsg where
  call_id : String
  name : String
  result : String

/-- `llm::messages::Message`. -/
inductive Message where
  | text (t : TextMsg)
  | toolCall (c : ToolCallMsg)
  | toolResult (r : ToolResultMsg)

/-- `config::Config` (model parameters). -/
structure Config where
  provider : ModelProvider
  name : String
  api_key : String
  api_url : String
  api_version : Option String
  max_tokens : Option Int
  n : Option Int
  temperature : Option F64
  top_p : Option F64
  top_k : Option Int
  frequency_penalty : Option F64
  presence_penalty : Option F64
  stop_sequence : Option String

/-- `tools::tool::ParamType`. -/
inductive ParamType where
  | string
  | integer
  | number
  | boolean
deriving DecidableEq, Repr

/-- The `Serialize` impl of `ParamType`. -/
def ParamType.serialize : ParamType → String
  | .string => "string"
  | .integer => "integer"
  | .number => "number"
  | .boolean => "boolean"

/-- `tools::tool::ToolParam` (a parameter of a tool's spec). -/
structure SpecParam where
  name : String
  description : String
  data_type : ParamType
  required : Bool

/-- `tools::tool::ToolSpec`. -/
structure ToolSpec where
  name : String
  description : String
  params : List SpecParam

/-- `tools::tool::ToolChoice`. -/
inductive ToolChoice where
  | none
  | auto
  | callOne
  | force (tool : String)

/-- `llm::util::role_to_llm`: per-provider role-name table indexed by the
role's ordinal. -/
def role_to_llm (provider : ModelProvider) (role : Role) : String :=
  match provider, role with
  | .openAI, .system => "system"
  | .openAI, .model => "assistant"
  | .openAI, .user => "user"
  | .anthropic, .system => ""
  | .anthropic, .model => "assistant"
  | .anthropic, .user => "user"
  | .gcp, .system => "system"
  | .gcp, .model => "model"
  | .gcp, .user => "user"

/-- `llm::util::llm_to_role`. -/
def llm_to_role (role : String) : Except Error Role :=
  if role = "system" then .ok .system
  else if role = "model" || role = "assistant" then .ok .model
  else if role = "user" then .ok .user
  else .error (.LLMResponseError "LLM returned message with an unknown role.")

/-- `llm::util::set_i64_param`: include the field only when configured. -/
def set_i64_param (payload : List (String × JVal)) (key : String)
    (val : Option Int) : List (String × JVal) :=
  match val with
  | some v => setKey payload key (.int v)
  | none => payload

/-- `llm::util::set_f64_param`: include the field only when configured and
finite. -/
def set_f64_param (payload : List (String × JVal)) (key : String)
    (val : Option F64) : List (String × JVal) :=
  match val with
  | some v => if v.finite then setKey payload key (.fnum v) else payload
  | none => payload

/-- `llm::util::tool_params_to_value`: builds the vendor object schema from a
tool's parameter list.  The loop fills `properties` (in declaration order)
and collects the names of required parameters, in declaration order. -/
def tool_params_to_value (params : List SpecParam) (provider : ModelProvider) :
    JVal :=
  let step := fun (acc : List (String × JVal) × List JVal) (param : SpecParam) =>
    (setKey acc.1 param.name
        (.obj [("type", .str param.data_type.serialize),
               ("description", .str param.description)]),
     if param.required then acc.2 ++ [.str param.name] else acc.2)
  let props := (params.foldl step ([], [])).1
  let required := (params.foldl step ([], [])).2
  let result := [("type", JVal.str "object"), ("properties", JVal.obj props)]
  let result := setKey result "required" (.arr required)
  match provider with
  | .openAI => .obj (setKey result "additionalProperties" (.bool false))
  | .anthropic => .obj (setKey result "additionalProperties" (.bool false))
  | .gcp => .obj result

/-- `check_for_error`, textually identical in all three adapters: an explicit
vendor error envelope short-circuits into `LLMErrorMessage` with the vendor's
message text (`val_as_str!` failure gives `LLMResponseError`). -/
def check_for_error (response : JVal) : Except Error Unit :=
  match response.getKey "error" with
  | some err =>
      match (err.idx "message").asStr with
      | some m => .error (.LLMErrorMessage m)
      | Option.none =>
          .error (.LLMResponseError
            "can't extract error message from LLM API response.")
  | Option.none => .ok ()

/-! ## OpenAI-shaped adapter (`llm/openai.rs`) -/

/-- `OpenAIChat` state (the `client` collaborator is passed at call sites). -/
structure OpenAIChat where
  system_prompt : String
  history : List JVal
  config : Config
  tools : List ToolSpec

namespace OpenAIChat

/-- `OpenAIChat::new`. -/
def new (config : Config) (tools : List ToolSpec) : OpenAIChat :=
  { system_prompt := "", history := [], config, tools }

/-- The vendor-native history entry appended by `prep_payload` for one input
message (`Text` and `ToolResult` only; a `ToolCall` input is skipped). -/
def historyEntry (provider : ModelProvider) : Message → Option JVal
  | .text txt =>
      some (.obj [("role", .str (role_to_llm provider txt.role)),
                  ("content", .str txt.message)])
  | .toolResult res =>
      some (.obj [("role", .str "tool"), ("content", .str res.result),
                  ("tool_call_id", .str res.call_id)])
  | .toolCall _ => none

/-- `OpenAIChat::add_tools`. -/
def add_tools (c : OpenAIChat) (payload : List (String × JVal)) :
    List (String × JVal) :=
  setKey payload "tools" (.arr (c.tools.map fun spec =>
    .obj [("type", .str "function"),
          ("function", .obj
            [("description", .str spec.description),
             ("name", .str spec.name),
             ("parameters", tool_params_to_value spec.params c.config.provider),
             ("strict", .bool true)])]))

/-- `OpenAIChat::prep_tool_use`: tool-choice directive, then unconditionally
`parallel_tool_calls = false`. -/
def prep_tool_use (c : OpenAIChat) (payload : List (String × JVal))
    (tools : ToolChoice) : List (String × JVal) :=
  let payload :=
    match tools with
    | .none => payload
    | .auto => c.add_tools (setKey payload "tool_choice" (.str "auto"))
    | .callOne => c.add_tools (setKey payload "tool_choice" (.str "required"))
    | .force tool =>
        c.add_tools (setKey payload "tool_choice"
          (.obj [("type", .str "function"),
                 ("function", .obj [("name", .str tool)])]))
  setKey payload "parallel_tool_calls" (.bool false)

/-- `OpenAIChat::prep_payload`: appends the inputs to history, then builds the
request object.  Returns the updated adapter state and the payload fields. -/
def prep_payload (c : OpenAIChat) (messages : List Message)
    (tools : ToolChoice) : OpenAIChat × List (String × JVal) :=
  let hist := c.history ++ messages.filterMap (historyEntry c.config.provider)
  let payload := [("model", JVal.str c.config.name)]
  let payload := setKey payload "messages" (.arr hist)
  let payload := set_f64_param payload "frequency_penalty" c.config.frequency_penalty
  let payload := set_f64_param payload "presence_penalty" c.config.presence_penalty
  let payload := set_i64_param payload "n" c.config.n
  let payload := set_f64_param payload "top_p" c.config.top_p
  let payload := set_f64_param payload "temperature" c.config.temperature
  let payload := set_i64_param payload "max_completion_tokens" c.config.max_tokens
  let payload :=
    match c.config.stop_sequence with
    | some val => setKey payload "stop" (.str val)
    | Option.none => payload
  ({ c with history := hist }, c.prep_tool_use payload tools)

/-- The `tool_calls` loop of `OpenAIChat::process_response`: this vendor
serializes arguments as a string needing a nested parse (`parse` models
`serde_json::from_str`, failing with `LLMJsonError`). -/
def toolCallsOf (parse : String → Except Error JVal) :
    List JVal → Except Error (List Message)
  | [] => .ok []
  | call :: rest => do
      match (call.idx "id").asStr with
      | Option.none =>
          .error (.LLMResponseError "can't extract tool call id from LLM API response.")
      | some call_id =>
      match ((call.idx "function").idx "name").asStr with
      | Option.none =>
          .error (.LLMResponseError "can't extract tool name from LLM API response.")
      | some name =>
      match ((call.idx "function").idx "arguments").asStr with
      | Option.none =>
          .error (.LLMResponseError "can't extract tool arguments from LLM API response.")
      | some arguments =>
      match parse arguments with
      | .error e => .error e
      | .ok args_obj =>
      match args_obj.asObj with
      | Option.none => .error (.LLMResponseError "can't enumerate arguments.")
      | some fields =>
          let more ← toolCallsOf parse rest
          .ok (.toolCall { call_id, name, params := fields } :: more)

/-- The per-choice translation of `OpenAIChat::process_response`: optional
`content`, optional `refusal`, then the tool calls, in that order. -/
def choiceMessages (parse : String → Except Error JVal) (msg : JVal) :
    Except Error (List Message) := do
  match (msg.idx "role").asStr with
  | Option.none =>
      .error (.LLMResponseError "can't extract message role from LLM API response.")
  | some roleStr =>
  match llm_to_role roleStr with
  | .error e => .error e
  | .ok role =>
  let part1 ←
    if (msg.idx "content").isNull then pure ([] : List Message)
    else
      match (msg.idx "content").asStr with
      | some content => pure [.text { role, message := content }]
      | Option.none =>
          .error (.LLMResponseError "can't extract message content from LLM API response.")
  let part2 ←
    if (msg.idx "refusal").isNull then pure ([] : List Message)
    else
      match (msg.idx "refusal").asStr with
      | some content => pure [.text { role, message := content }]
      | Option.none =>
          .error (.LLMResponseError "can't extract refusal content from LLM API response.")
  let part3 ←
    if (msg.idx "tool_calls").isNull then pure ([] : List Message)
    else
      match (msg.idx "tool_calls").asArr with
      | some calls => toolCallsOf parse calls
      | Option.none =>
          .error (.LLMResponseError
            "unexpected answer format, can't enumerate tool call requests.")
  .ok (part1 ++ part2 ++ part3)

/-- The `choices` loop: each choice's `message` is appended verbatim to
history before translation; on failure the partial history is kept (as the
mutated `self.history` is in the source). -/
def walkChoices (parse : String → Except Error JVal) :
    List JVal → List JVal → List Message →
    List JVal × Except Error (List Message)
  | [], hist, acc => (hist, .ok acc)
  | choice :: rest, hist, acc =>
      let msg := choice.idx "message"
      let hist := hist ++ [msg]
      match choiceMessages parse msg with
      | .error e => (hist, .error e)
      | .ok ms => walkChoices parse rest hist (acc ++ ms)

/-- `OpenAIChat::process_response`. -/
def process_response (c : OpenAIChat) (parse : String → Except Error JVal)
    (response : JVal) : OpenAIChat × Except Error (List Message) :=
  match check_for_error response with
  | .error e => (c, .error e)
  | .ok () =>
      match (response.idx "choices").asArr with
      | Option.none =>
          (c, .error (.LLMResponseError
            "unexpected answer format, can't enumerate response messages."))
      | some choices =>
          let (hist, res) := walkChoices parse choices c.history []
          ({ c with history := hist }, res)

/-- `OpenAIChat::get_inference`: build the payload (mutating history), send
(`transport` models the reqwest call's outcome for the built payload), then
process the response.  Returns the final adapter state alongside the result. -/
def get_inference (c : OpenAIChat) (parse : String → Except Error JVal)
    (messages : List Message) (tools : ToolChoice)
    (transport : Except Error JVal) :
    OpenAIChat × Except Error (List Message) :=
  let (c1, _payload) := c.prep_payload messages tools
  match transport with
  | .error e => (c1, .error e)
  | .ok response => c1.process_response parse response

/-- `OpenAIChat::set_system_prompt`: for this vendor the prompt is the first
history entry. -/
def set_system_prompt (c : OpenAIChat) (prompt : String) : OpenAIChat :=
  let val : JVal := .obj [("role", .str "system"), ("content", .str prompt)]
  { c with
    system_prompt := prompt,
    history :=
      match c.history with
      | [] => [val]
      | _ :: rest => val :: rest }

end OpenAIChat

/-! ## Anthropic-shaped adapter (`llm/anthropic.rs`) -/

/-- `AnthropicChat` state. -/
structure AnthropicChat where
  system_prompt : String
  history : List JVal
  config : Config
  tools : List ToolSpec

namespace AnthropicChat

/-- `AnthropicChat::new`: requires `api_version` and `max_tokens` at
construction time; either missing fails with `MissingArgError` before any
network interaction. -/
def new (config : Config) (tools : List ToolSpec) : Except Error AnthropicChat :=
  if config.api_version.isNone then
    .error (.MissingArgError "api-version is mandatory for anthropic.")
  else if config.max_tokens.isNone then
    .error (.MissingArgError "max-tokens is mandatory for anthropic.")
  else
    .ok { system_prompt := "", history := [], config, tools }

/-- The vendor-native history entry `prep_payload` appends per input. -/
def historyEntry (provider : ModelProvider) : Message → Option JVal
  | .text txt =>
      some (.obj [("role", .str (role_to_llm provider txt.role)),
                  ("content", .str txt.message)])
  | .toolResult res =>
      some (.obj [("role", .str (role_to_llm provider .user)),
                  ("content", .arr [.obj
                    [("type", .str "tool_result"),
                     ("tool_use_id", .str res.call_id),
                     ("content", .str res.result)]])])
  | .toolCall _ => none

/-- `AnthropicChat::add_tools`. -/
def add_tools (c : AnthropicChat) (payload : List (String × JVal)) :
    List (String × JVal) :=
  setKey payload "tools" (.arr (c.tools.map fun spec =>
    .obj [("description", .str spec.description),
          ("name", .str spec.name),
          ("input_schema", tool_params_to_value spec.params c.config.provider)]))

/-- `AnthropicChat::prep_tool_use`: every non-`None` variant carries
`disable_parallel_tool_use = true` inside the `tool_choice` directive. -/
def prep_tool_use (c : AnthropicChat) (payload : List (String × JVal))
    (tools : ToolChoice) : List (String × JVal) :=
  match tools with
  | .none => payload
  | .auto =>
      c.add_tools (setKey payload "tool_choice"
        (.obj [("type", .str "auto"),
               ("disable_parallel_tool_use", .bool true)]))
  | .callOne =>
      c.add_tools (setKey payload "tool_choice"
        (.obj [("type", .str "any"),
               ("disable_parallel_tool_use", .bool true)]))
  | .force tool =>
      c.add_tools (setKey payload "tool_choice"
        (.obj [("type", .str "tool"),
               ("name", .str tool),
               ("disable_parallel_tool_use", .bool true)]))

/-- `AnthropicChat::prep_payload`: the system prompt is a dedicated field
for this vendor. -/
def prep_payload (c : AnthropicChat) (messages : List Message)
    (tools : ToolChoice) : AnthropicChat × List (String × JVal) :=
  let hist := c.history ++ messages.filterMap (historyEntry c.config.provider)
  let payload := [("model", JVal.str c.config.name),
                  ("system", JVal.str c.system_prompt)]
  let payload := setKey payload "messages" (.arr hist)
  let payload := set_i64_param payload "max_tokens" c.config.max_tokens
  let payload := set_f64_param payload "top_p" c.config.top_p
  let payload := set_i64_param payload "top_k" c.config.top_k
  let payload := set_f64_param payload "temperature" c.config.temperature
  let payload :=
    match c.config.stop_sequence with
    | some val => setKey payload "stop_sequences" (.arr [.str val])
    | Option.none => payload
  ({ c with history := hist }, c.prep_tool_use payload tools)

/-- One content fragment of the response translated to a `Message`. -/
def fragmentMessage (role : Role) (msg : JVal) : Except Error Message :=
  match (msg.idx "type").asStr with
  | Option.none =>
      .error (.LLMResponseError "can't extract message type from LLM API response.")
  | some msg_type =>
      if msg_type = "text" then
        match (msg.idx "text").asStr with
        | some text => .ok (.text { role, message := text })
        | Option.none =>
            .error (.LLMResponseError "can't extract text from LLM API response.")
      else if msg_type = "tool_use" then
        match (msg.idx "id").asStr with
        | Option.none =>
            .error (.LLMResponseError "can't extract tool call id from LLM API response.")
        | some call_id =>
        match (msg.idx "name").asStr with
        | Option.none =>
            .error (.LLMResponseError "can't extract tool name from LLM API response.")
        | some name =>
        match (msg.idx "input").asObj with
        | Option.none =>
            .error (.LLMResponseError "can't enumerate tool call parameters.")
        | some fields => .ok (.toolCall { call_id, name, params := fields })
      else .error (.LLMResponseError "unexpected message type.")

/-- The content loop of `AnthropicChat::process_response`: each fragment is
appended to history (wrapped with the response's role) before translation. -/
def walkContent (roleVal : JVal) (role : Role) :
    List JVal → List JVal → List Message →
    List JVal × Except Error (List Message)
  | [], hist, acc => (hist, .ok acc)
  | msg :: rest, hist, acc =>
      let hist := hist ++ [.obj [("role", roleVal), ("content", .arr [msg])]]
      match fragmentMessage role msg with
      | .error e => (hist, .error e)
      | .ok m => walkContent roleVal role rest hist (acc ++ [m])

/-- `AnthropicChat::process_response`. -/
def process_response (c : AnthropicChat) (response : JVal) :
    AnthropicChat × Except Error (List Message) :=
  match check_for_error response with
  | .error e => (c, .error e)
  | .ok () =>
      match (response.idx "role").asStr with
      | Option.none =>
          (c, .error (.LLMResponseError "can't extract role from LLM API response."))
      | some roleStr =>
          match llm_to_role roleStr with
          | .error e => (c, .error e)
          | .ok role =>
              match (response.idx "content").asArr with
              | Option.none =>
                  (c, .error (.LLMResponseError
                    "can't enumerate messages in the response."))
              | some content =>
                  let (hist, res) :=
                    walkContent (response.idx "role") role content c.history []
                  ({ c with history := hist }, res)

/-- `AnthropicChat::get_inference`. -/
def get_inference (c : AnthropicChat) (messages : List Message)
    (tools : ToolChoice) (transport : Except Error JVal) :
    AnthropicChat × Except Error (List Message) :=
  let (c1, _payload) := c.prep_payload messages tools
  match transport with
  | .error e => (c1, .error e)
  | .ok response => c1.process_response response

/-- `AnthropicChat::set_system_prompt` (a plain field for this vendor). -/
def set_system_prompt (c : AnthropicChat) (prompt : String) : AnthropicChat :=
  { c with system_prompt := prompt }

end AnthropicChat

/-! ## GCP-shaped adapter (`llm/gcp.rs`) -/

/-- `GcpChat` state. -/
structure GcpChat where
  system_prompt : String
  history : List JVal
  config : Config
  tools : List ToolSpec

namespace GcpChat

/-- `GcpChat::new` (never fails). -/
def new (config : Config) (tools : List ToolSpec) : GcpChat :=
  { system_prompt := "", history := [], config, tools }

/-- The vendor-native history entry `prep_payload` appends per input. -/
def historyEntry (provider : ModelProvider) : Message → Option JVal
  | .text txt =>
      some (.obj [("role", .str (role_to_llm provider txt.role)),
                  ("parts", .arr [.obj [("text", .str txt.message)]])])
  | .toolResult res =>
      some (.obj [("role", .str "user"),
                  ("parts", .arr [.obj
                    [("functionResponse", .obj
                      [("name", .str res.name),
                       ("response", .obj
                         [("name", .str res.name),
                          ("content", .str res.result)])])]])])
  | .toolCall _ => none

/-- `GcpChat::add_tools`. -/
def add_tools (c : GcpChat) (payload : List (String × JVal)) :
    List (String × JVal) :=
  setKey payload "tools" (.arr [.obj
    [("function_declarations", .arr (c.tools.map fun spec =>
      .obj [("name", .str spec.name),
            ("description", .str spec.description),
            ("parameters", tool_params_to_value spec.params c.config.provider)]))]])

/-- `GcpChat::prep_tool_use`: only a `function_calling_config` mode; this
vendor's directive carries no parallel-tool-call field at all. -/
def prep_tool_use (c : GcpChat) (payload : List (String × JVal))
    (tools : ToolChoice) : List (String × JVal) :=
  match tools with
  | .none => payload
  | .auto =>
      c.add_tools (setKey payload "tool_config"
        (.obj [("function_calling_config", .obj [("mode", .str "AUTO")])]))
  | .callOne =>
      c.add_tools (setKey payload "tool_config"
        (.obj [("function_calling_config", .obj [("mode", .str "ANY")])]))
  | .force tool =>
      c.add_tools (setKey payload "tool_config"
        (.obj [("function_calling_config", .obj
          [("mode", .str "ANY"),
           ("allowed_function_names", .arr [.str tool])])]))

/-- The `generationConfig` sub-object of `GcpChat::prep_payload` (the source
sets these fields in place on `payload["generationConfig"]`, which only this
sequence touches). -/
def generationConfig (config : Config) : List (String × JVal) :=
  let g : List (String × JVal) := []
  let g := set_i64_param g "maxOutputTokens" config.max_tokens
  let g := set_f64_param g "topP" config.top_p
  let g := set_i64_param g "topK" config.top_k
  let g := set_f64_param g "temperature" config.temperature
  let g := set_f64_param g "presencePenalty" config.presence_penalty
  let g := set_f64_param g "frequencyPenalty" config.frequency_penalty
  match config.stop_sequence with
  | some val => setKey g "stopSequences" (.arr [.str val])
  | Option.none => g

/-- `GcpChat::prep_payload`: system prompt in `systemInstruction`, sampling
parameters inside `generationConfig`. -/
def prep_payload (c : GcpChat) (messages : List Message) (tools : ToolChoice) :
    GcpChat × List (String × JVal) :=
  let hist := c.history ++ messages.filterMap (historyEntry c.config.provider)
  let payload := [("systemInstruction",
    JVal.obj [("parts", JVal.obj [("text", JVal.str c.system_prompt)])])]
  let payload := setKey payload "contents" (.arr hist)
  let payload := setKey payload "generationConfig" (.obj (generationConfig c.config))
  ({ c with history := hist }, c.prep_tool_use payload tools)

/-- One response part translated to a `Message`; this vendor never assigns a
call identifier, so tool calls carry an empty `call_id`. -/
def partMessage (role : Role) (part : JVal) : Except Error Message :=
  if (part.idx "functionCall").isObj then
    match ((part.idx "functionCall").idx "name").asStr with
    | Option.none =>
        .error (.LLMResponseError "can't extract tool name from LLM API response.")
    | some name =>
        match ((part.idx "functionCall").idx "args").asObj with
        | Option.none =>
            .error (.LLMResponseError "can't enumerate tool call parameters.")
        | some fields => .ok (.toolCall { call_id := "", name, params := fields })
  else if (part.idx "text").isStr then
    match (part.idx "text").asStr with
    | some message => .ok (.text { role, message })
    | Option.none => .error (.LLMResponseError "unexpected message type.")
  else .error (.LLMResponseError "unexpected message type.")

/-- The parts loop of one candidate. -/
def walkParts (role : Role) :
    List JVal → List Message → Except Error (List Message)
  | [], acc => .ok acc
  | part :: rest, acc =>
      match partMessage role part with
      | .error e => .error e
      | .ok m => walkParts role rest (acc ++ [m])

/-- The candidates loop of `GcpChat::process_response`: each candidate's
`content` is appended verbatim to history before its parts are walked. -/
def walkCandidates :
    List JVal → List JVal → List Message →
    List JVal × Except Error (List Message)
  | [], hist, acc => (hist, .ok acc)
  | candidate :: rest, hist, acc =>
      let content := candidate.idx "content"
      let hist := hist ++ [content]
      match (content.idx "role").asStr with
      | Option.none =>
          (hist, .error (.LLMResponseError
            "can't extract message role from LLM API response."))
      | some roleStr =>
          match llm_to_role roleStr with
          | .error e => (hist, .error e)
          | .ok role =>
              match (content.idx "parts").asArr with
              | Option.none =>
                  (hist, .error (.LLMResponseError
                    "unexpected answer format, can't enumerate message parts."))
              | some parts =>
                  match walkParts role parts [] with
                  | .error e => (hist, .error e)
                  | .ok ms => walkCandidates rest hist (acc ++ ms)

/-- `GcpChat::process_response`. -/
def process_response (c : GcpChat) (response : JVal) :
    GcpChat × Except Error (List Message) :=
  match check_for_error response with
  | .error e => (c, .error e)
  | .ok () =>
      match (response.idx "candidates").asArr with
      | Option.none =>
          (c, .error (.LLMResponseError "can't enumerate messages in the response."))
      | some candidates =>
          let (hist, res) := walkCandidates candidates c.history []
          ({ c with history := hist }, res)

/-- `GcpChat::get_inference`. -/
def get_inference (c : GcpChat) (messages : List Message) (tools : ToolChoice)
    (transport : Except Error JVal) : GcpChat × Except Error (List Message) :=
  let (c1, _payload) := c.prep_payload messages tools
  match transport with
  | .error e => (c1, .error e)
  | .ok response => c1.process_response response

/-- `GcpChat::set_system_prompt`. -/
def set_system_prompt (c : GcpChat) (prompt : String) : GcpChat :=
  { c with system_prompt := prompt }

end GcpChat

/-! ## Application side (`apprentice/src`) -/

/-- `rustyline::error::ReadlineError`, reduced to the cases the agent
distinguishes: interrupt, end-of-stream, and any other read failure. -/
inductive ReadlineErr where
  | interrupted
  | eof
  | other (msg : String)
deriving DecidableEq, Repr

/-- `apprentice::error::AppError` (variants whose payloads are foreign error
types carry their display text). -/
inductive AppError where
  | TomlError (msg : String)
  | ConfigParseError (msg : String)
  | MissingArgError (msg : String)
  | InvalidArgError (msg : String)
  | LibError (e : Apprentice.Error)
  | Rustyline (e : ReadlineErr)
  | Unknown
  | ColorParseError
  | CandleCoreError (msg : String)
  | HfApiCall (msg : String)
  | ApplicationError (msg : String)
  | Error (msg : String)
deriving DecidableEq, Repr

/-- The `Display` impl of `apprentice_lib::error::Error` (`thiserror`
format strings). -/
def Error.display : Apprentice.Error → String
  | .MissingArgError m =>
      "Missing mandatory arguments: " ++ m ++
      "\nTry `apprentice --help` for more information."
  | .LLMCallError m => "Failed to call LLM: " ++ m
  | .LLMJsonError m => "Failed to process LLM call: " ++ m
  | .LLMResponseError m => "Failed to parse LLM response: " ++ m
  | .Error m => m
  | .LLMErrorMessage m => "LLM provider responded with error: " ++ m

/-- The `Display` impl of `ReadlineErr` occurrences as rendered by
`rustyline` (only the text matters to the model). -/
def ReadlineErr.display : ReadlineErr → String
  | .interrupted => "Interrupted"
  | .eof => "EOF"
  | .other m => m

/-- The `Display` impl of `AppError` (`thiserror` format strings; note the
source formats `LibError` with the `Incorrect argument value:` prefix). -/
def AppError.display : AppError → String
  | .TomlError m => "Failed to parse config file: " ++ m
  | .ConfigParseError m => "Failed to parse config file: " ++ m
  | .MissingArgError m =>
      "Missing mandatory arguments: " ++ m ++
      "\nTry `apprentice --help` for more information."
  | .InvalidArgError m => "Incorrect argument value: " ++ m
  | .LibError e => "Incorrect argument value: " ++ e.display
  | .Rustyline e => "Reading user input: " ++ e.display
  | .Unknown => "Unknown error"
  | .ColorParseError => "The format of the color value is incorrect"
  | .CandleCoreError m => "Candle core error: " ++ m
  | .HfApiCall m => "Huggingface hub API call: " ++ m
  | .ApplicationError m => "Application error: " ++ m
  | .Error m => m

/-- Rust `str::trim` (strip leading and trailing whitespace), modelled
structurally on the character list. -/
def strTrim (s : String) : String :=
  ⟨((s.data.dropWhile Char.isWhitespace).reverse.dropWhile Char.isWhitespace).reverse⟩

/-- Rust `str::starts_with`, modelled structurally on the character list. -/
def strStartsWith (s pre : String) : Bool :=
  pre.data.isPrefixOf s.data

/-- `apprentice::config::Goal`. -/
inductive Goal where
  | gcp
  | aws
  | azure
deriving DecidableEq, Repr

/-- Outcome of the command-execution collaborator for one spawned command:
captured stdout, captured stderr and the exit status, or a failure of the
spawn / stream-capture / wait step (`apprentice/src/util.rs`). -/
inductive SpawnResult where
  | ok (stdout stderr : String) (exit_code : Int)
  | spawnFailed (err : String)
  | captureFailed (err : String)
  | waitFailed (err : String)

/-- `apprentice::util::exec_pipe`: runs the command through the collaborator,
awaits but discards the exit status, and formats the captured streams. -/
def exec_pipe (run : String → SpawnResult) (command : String) :
    Except AppError String :=
  match run command with
  | .spawnFailed e =>
      .error (.Error ("Failed to run " ++ command ++ "\nError: " ++ e))
  | .captureFailed e =>
      .error (.Error ("Failed to capture stdio of " ++ command ++ "\nError: " ++ e))
  | .waitFailed e =>
      .error (.Error ("Failed to terminate " ++ command ++ "\nError: " ++ e))
  | .ok stdout stderr _exit_code =>
      .ok ("STDOUT:\n" ++ stdout ++ "\nSTDERR:\n" ++ stderr)

/-- The terminal collaborator for tool confirmations: the script of lines the
human will type.  `Term::tool_input` yields the next line; an exhausted
script is an end-of-stream read failure. -/
structure TermState where
  inputs : List String

namespace Shell

/-- `Shell::exec`, the confirmation loop: `y` executes via `exec_pipe`, `n`
reads a free-text reason and cancels, anything else re-prompts.  Returns the
tool result, the remaining terminal script, and the commands passed to
`exec_pipe` (the execution trace). -/
def exec (run : String → SpawnResult) (command : String) :
    List String → Except AppError String × List String × List String
  | [] => (.error (.Rustyline .eof), [], [])
  | input :: rest =>
      let user_input := strTrim input
      if user_input.length = 1 then
        if user_input = "y" then (exec_pipe run command, rest, [command])
        else if user_input = "n" then
          match rest with
          | [] => (.error (.Rustyline .eof), [], [])
          | reason :: rest2 =>
              (.ok ("User cancelled the operation with the reason: " ++ reason),
               rest2, [])
        else exec run command rest
      else exec run command rest

/-- `Shell::call_tool`: uniform parameter validation (diagnostics are tool
results, not errors), then the confirmation loop. -/
def call_tool (run : String → SpawnResult) (params : List (String × JVal))
    (term : TermState) : Except AppError String × List String × List String :=
  match params with
  | [param] =>
      if param.1 = "command" then
        match param.2.asStr with
        | some command => exec run command term.inputs
        | Option.none =>
            (.ok "wrong parameter value type, expect 1 parameter called \"command\" of type string.",
             term.inputs, [])
      else
        (.ok "wrong parameter name, expect 1 parameter called \"command\" of type string.",
         term.inputs, [])
  | _ =>
      (.ok "wrong number of input parameters, expect 1 parameter called \"command\" of type string.",
       term.inputs, [])

end Shell

namespace Help

/-- `Help::call_tool`: validates the parameter, gates on the goal's allowed
program-name prefixes (guidance strings are tool results), then executes the
command with the help flag appended.  The second component is the execution
trace. -/
def call_tool (run : String → SpawnResult) (goal : Goal)
    (params : List (String × JVal)) : Except AppError String × List String :=
  match params with
  | [param] =>
      if param.1 = "command" then
        match param.2.asStr with
        | some command =>
            match goal with
            | .gcp =>
                if strStartsWith command "gcloud " || strStartsWith command "bq " ||
                    strStartsWith command "gsutil " then
                  (exec_pipe run (command ++ " --help"), [command ++ " --help"])
                else
                  (.ok "command must start with \"gcloud \",  \"bq  \", or  \"gsutil  \".", [])
            | .aws =>
                if strStartsWith command "aws " then
                  (exec_pipe run (command ++ " help"), [command ++ " help"])
                else (.ok "command must start with \"aws \".", [])
            | .azure =>
                if strStartsWith command "az " then
                  (exec_pipe run (command ++ " --help"), [command ++ " --help"])
                else (.ok "command must start with \"az \".", [])
        | Option.none =>
            (.ok "wrong parameter value type, expect 1 parameter called \"command\" of type string.", [])
      else
        (.ok "wrong parameter name, expect 1 parameter called \"command\" of type string.", [])
  | _ =>
      (.ok "wrong number of input parameters, expect 1 parameter called \"command\" of type string.", [])

end Help

/-! ## Agent orchestrator (`apprentice/src/agent.rs`) -/

/-- Observable side effects of one `process_response` round. -/
inductive Event where
  | print (s : String)
  | dispatch (tool : String)
  | exec (command : String)
deriving DecidableEq, Repr

/-- Whether an event is a plain `Term::apprentice_print`. -/
def Event.isPrint : Event → Bool
  | .print _ => true
  | _ => false

/-- The collaborators `Agent::process_response` consults: the process
spawner, the configured goal, and the terminal script for tool
confirmations. -/
structure AgentEnv where
  run : String → SpawnResult
  goal : Goal
  toolTerm : TermState

/-- Where control goes after `process_response`: feed a `ToolResult` back as
the next inference input, return to awaiting user input
(`get_user_message`), or terminate with a fatal error. -/
inductive Outcome where
  | nextMessage (r : ToolResultMsg)
  | awaitUser
  | fatal (e : AppError)

/-- The batch scan of `Agent::process_response` (the `results.len() > 1 ||
results.is_empty()` branch): print every text immediately, track at most one
tool call, fail on a second tool call or on any tool-result message. -/
def scanMessages :
    List Message → Option ToolCallMsg →
    List Event × Except AppError (Option ToolCallMsg)
  | [], tool_msg => ([], .ok tool_msg)
  | .text t :: rest, tool_msg =>
      let (evs, r) := scanMessages rest tool_msg
      (.print t.message :: evs, r)
  | .toolCall tc :: rest, tool_msg =>
      match tool_msg with
      | some _ =>
          ([], .error (.ApplicationError
            "Unexpected LLM response: parallel tool call is requested."))
      | Option.none => scanMessages rest (some tc)
  | .toolResult _ :: _, _ =>
      ([], .error (.ApplicationError
        "Unexpected \"tool result\" message from LLM."))

/-- `Agent::process_tool_call`: dispatch to Shell or Help by name (an unknown
name yields a synthetic result string without a dispatch), then wrap the
result string into a `ToolResult` carrying the original call's id and
name. -/
def processToolCall (env : AgentEnv) (tc : ToolCallMsg) :
    Except AppError ToolResultMsg × List Event :=
  if tc.name = "SHELL" then
    let (res, _term, cmds) := Shell.call_tool env.run tc.params env.toolTerm
    (match res with
     | .ok r => .ok { call_id := tc.call_id, name := tc.name, result := r }
     | .error e => .error e,
     Event.dispatch "SHELL" :: cmds.map Event.exec)
  else if tc.name = "HELP" then
    let (res, cmds) := Help.call_tool env.run env.goal tc.params
    (match res with
     | .ok r => .ok { call_id := tc.call_id, name := tc.name, result := r }
     | .error e => .error e,
     Event.dispatch "HELP" :: cmds.map Event.exec)
  else
    (.ok { call_id := tc.call_id, name := tc.name,
           result := "Unknown tool \"" ++ tc.name ++ "\" was requested." }, [])

/-- `Agent::process_response`: classify the inference outcome.  A `LibError`
(the only wrapper the call sites produce) is handled inline — the provider
error envelope and the transport failure are printed, every other library
failure is silent — and the session returns to awaiting user input; only a
non-library error terminates. -/
def processResponse (env : AgentEnv)
    (response : Except AppError (List Message)) : List Event × Outcome :=
  match response with
  | .ok results =>
      if results.length > 1 || results.isEmpty then
        let (evs, scanned) := scanMessages results none
        match scanned with
        | .error e => (evs, .fatal e)
        | .ok (some tc) =>
            let (res, tevs) := processToolCall env tc
            (evs ++ tevs,
             match res with
             | .ok tr => .nextMessage tr
             | .error e => .fatal e)
        | .ok Option.none => (evs, .awaitUser)
      else
        match results with
        | [.text t] => ([.print t.message], .awaitUser)
        | [.toolCall tc] =>
            let (res, tevs) := processToolCall env tc
            (tevs,
             match res with
             | .ok tr => .nextMessage tr
             | .error e => .fatal e)
        | [.toolResult _] =>
            ([], .fatal (.ApplicationError "Unexpected message type from the LLM."))
        | _ => ([], .awaitUser)
  | .error (AppError.LibError e) =>
      (match e with
       | .LLMErrorMessage m =>
           [.print (AppError.display (.LibError (.LLMErrorMessage m)))]
       | .LLMCallError m =>
           [.print (AppError.display (.LibError (.LLMCallError m)))]
       | _ => [],
       .awaitUser)
  | .error e => ([], .fatal e)

/-! ## Specification-side helpers and concrete fixtures -/

/-- The payload field an `Option Int` sampling parameter contributes:
present exactly when configured. -/
def i64Field : Option Int → Option JVal
  | some v => some (.int v)
  | Option.none => none

/-- The payload field an `Option F64` sampling parameter contributes:
present exactly when configured with a finite value. -/
def f64Field : Option F64 → Option JVal
  | some v => if v.finite then some (.fnum v) else none
  | Option.none => none

mutual

/-- Formalization of "the payload contains a parallel-tool-calls-disabled
directive": anywhere in the JSON tree, a key `parallel_tool_calls` with
value `false` (the OpenAI spelling) or a key `disable_parallel_tool_use`
with value `true` (the Anthropic spelling). -/
def mentionsParallelDisable : JVal → Bool
  | .obj fields => mentionsParallelDisableFields fields
  | .arr elems => mentionsParallelDisableList elems
  | _ => false

/-- Object-field case of `mentionsParallelDisable`. -/
def mentionsParallelDisableFields : List (String × JVal) → Bool
  | [] => false
  | (k, v) :: rest =>
      (k = "parallel_tool_calls" &&
        match v with | .bool false => true | _ => false) ||
      (k = "disable_parallel_tool_use" &&
        match v with | .bool true => true | _ => false) ||
      mentionsParallelDisable v || mentionsParallelDisableFields rest

/-- Array-element case of `mentionsParallelDisable`. -/
def mentionsParallelDisableList : List JVal → Bool
  | [] => false
  | v :: rest => mentionsParallelDisable v || mentionsParallelDisableList rest

end

/-- Count of `ToolCall` messages in a response batch. -/
def countToolCalls : List Message → Nat
  | [] => 0
  | .toolCall _ :: rest => countToolCalls rest + 1
  | _ :: rest => countToolCalls rest

/-- A minimal concrete configuration for the OpenAI-shaped adapter. -/
def cfgOpenAI : Config :=
  { provider := .openAI, name := "gpt", api_key := "k", api_url := "u",
    api_version := none, max_tokens := none, n := none, temperature := none,
    top_p := none, top_k := none, frequency_penalty := none,
    presence_penalty := none, stop_sequence := none }

/-- `cfgOpenAI` with `top_k` configured (and nothing else). -/
def cfgTopK : Config := { cfgOpenAI with top_k := some 5 }

/-- A minimal concrete configuration for the GCP-shaped adapter. -/
def cfgGcp : Config := { cfgOpenAI with provider := .gcp }

/-- A minimal concrete configuration accepted by the Anthropic-shaped
adapter's constructor. -/
def cfgAnthropic : Config :=
  { cfgOpenAI with provider := .anthropic, api_version := some "2023-06-01",
                   max_tokens := some 4096 }

/-- A concrete collaborator environment for orchestrator runs: every spawned
command succeeds with empty output, the goal is AWS, the confirmation
terminal script is empty. -/
def envTest : AgentEnv :=
  { run := fun _ => .ok "" "" 0, goal := .aws, toolTerm := ⟨[]⟩ }

/-- A concrete vendor error envelope, as in the spec's scenario. -/
def errEnvelope : JVal :=
  .obj [("error", .obj [("message", .str "rate limited")])]

/-- A `serde_json::from_str` collaborator stub that is never consulted by the
scenarios that use it. -/
def parseStub : String → Except Error JVal :=
  fun _ => .error (.LLMJsonError "unused")

/-- A concrete OpenAI-shaped adapter over the minimal configuration. -/
def chatOpenAI : OpenAIChat := OpenAIChat.new cfgOpenAI []

/-- A concrete Anthropic-shaped adapter over `cfgAnthropic` (the state
`AnthropicChat::new` returns for it). -/
def chatAnthropic : AnthropicChat :=
  { system_prompt := "", history := [], config := cfgAnthropic, tools := [] }

/-- A concrete GCP-shaped adapter over the minimal configuration. -/
def chatGcp : GcpChat := GcpChat.new cfgGcp []

/-- A collaborator environment whose confirmation terminal script declines
the proposed command with reason `busy`. -/
def envDecline : AgentEnv :=
  { run := fun _ => .ok "" "" 0, goal := .aws, toolTerm := ⟨["n", "busy"]⟩ }

/-! ## Lemmas about the embedding -/

theorem lookupKey_setKey (fs : List (String × JVal)) (key k : String) (v : JVal) :
    lookupKey (setKey fs key v) k = if k = key then some v else lookupKey fs k := by
  induction fs with
  | nil =>
      rcases eq_or_ne k key with h | h
      · subst h; simp [setKey, lookupKey]
      · simp [setKey, lookupKey, h, Ne.symm h]
  | cons head tail ih =>
      obtain ⟨k0, w⟩ := head
      rcases eq_or_ne k0 key with h0 | h0
      · subst h0
        rcases eq_or_ne k k0 with h | h
        · subst h; simp [setKey, lookupKey]
        · simp [setKey, lookupKey, h, Ne.symm h]
      · rcases eq_or_ne k0 k with h | h
        · subst h
          simp [setKey, lookupKey, h0, Ne.symm h0]
        · simp [setKey, lookupKey, h0, h, ih]

theorem lookupKey_set_i64 (fs : List (String × JVal)) (key k : String)
    (o : Option Int) :
    lookupKey (set_i64_param fs key o) k =
      if k = key then (i64Field o).or (lookupKey fs k) else lookupKey fs k := by
  cases o with
  | none => simp [set_i64_param, i64Field, Option.none_or]
  | some v => simp [set_i64_param, i64Field, lookupKey_setKey]

theorem lookupKey_set_f64 (fs : List (String × JVal)) (key k : String)
    (o : Option F64) :
    lookupKey (set_f64_param fs key o) k =
      if k = key then (f64Field o).or (lookupKey fs k) else lookupKey fs k := by
  cases o with
  | none => simp [set_f64_param, f64Field, Option.none_or]
  | some v =>
      cases hv : v.finite <;>
        simp [set_f64_param, f64Field, hv, lookupKey_setKey, Option.none_or]

theorem openai_prep_tool_use_lookup (c : OpenAIChat)
    (payload : List (String × JVal)) (tc : ToolChoice) (k : String)
    (h1 : k ≠ "tool_choice") (h2 : k ≠ "tools")
    (h3 : k ≠ "parallel_tool_calls") :
    lookupKey (c.prep_tool_use payload tc) k = lookupKey payload k := by
  cases tc <;>
    simp [OpenAIChat.prep_tool_use, OpenAIChat.add_tools, lookupKey_setKey,
      h1, h2, h3]

theorem anthropic_prep_tool_use_lookup (c : AnthropicChat)
    (payload : List (String × JVal)) (tc : ToolChoice) (k : String)
    (h1 : k ≠ "tool_choice") (h2 : k ≠ "tools") :
    lookupKey (c.prep_tool_use payload tc) k = lookupKey payload k := by
  cases tc <;>
    simp [AnthropicChat.prep_tool_use, AnthropicChat.add_tools,
      lookupKey_setKey, h1, h2]

theorem gcp_prep_tool_use_lookup (c : GcpChat)
    (payload : List (String × JVal)) (tc : ToolChoice) (k : String)
    (h1 : k ≠ "tool_config") (h2 : k ≠ "tools") :
    lookupKey (c.prep_tool_use payload tc) k = lookupKey payload k := by
  cases tc <;>
    simp [GcpChat.prep_tool_use, GcpChat.add_tools, lookupKey_setKey, h1, h2]

theorem scanMessages_two_toolcalls (ms : List Message) (st : Option ToolCallMsg)
    (h : 2 ≤ countToolCalls ms + (if st.isSome then 1 else 0)) :
    ∃ s, (scanMessages ms st).2 = .error (.ApplicationError s) ∧
      (s = "Unexpected LLM response: parallel tool call is requested." ∨
       s = "Unexpected \"tool result\" message from LLM.") ∧
      ∀ e ∈ (scanMessages ms st).1, e.isPrint := by
  induction ms generalizing st with
  | nil =>
      exfalso
      cases st <;> simp [countToolCalls] at h
  | cons m rest ih =>
      cases m with
      | text t =>
          obtain ⟨s, h1, h2, h3⟩ := ih st (by simpa [countToolCalls] using h)
          rcases hs : scanMessages rest st with ⟨evs, r⟩
          rw [hs] at h1 h3
          refine ⟨s, ?_, h2, ?_⟩
          · simpa [scanMessages, hs] using h1
          · simp only [scanMessages, hs]
            intro e he
            rcases List.mem_cons.mp he with he | he
            · subst he; rfl
            · exact h3 e he
      | toolCall tc =>
          cases st with
          | some tc0 =>
              exact ⟨_, by simp [scanMessages], Or.inl rfl, by simp [scanMessages]⟩
          | none =>
              apply ih (some tc)
              simp [countToolCalls] at h ⊢
              omega
      | toolResult tr =>
          exact ⟨_, by simp [scanMessages], Or.inr rfl, by simp [scanMessages]⟩

theorem countToolCalls_le_length (ms : List Message) :
    countToolCalls ms ≤ ms.length := by
  induction ms with
  | nil => simp [countToolCalls]
  | cons m rest ih => cases m <;> simp [countToolCalls] <;> omega

theorem processToolCall_ok_fields (env : AgentEnv) (tc : ToolCallMsg)
    (tr : ToolResultMsg) (tevs : List Event)
    (h : processToolCall env tc = (.ok tr, tevs)) :
    tr.call_id = tc.call_id ∧ tr.name = tc.name := by
  by_cases h1 : tc.name = "SHELL"
  · rcases hres : Shell.call_tool env.run tc.params env.toolTerm with ⟨res, term, cmds⟩
    cases res with
    | ok r =>
        simp [processToolCall, h1, hres] at h
        obtain ⟨h4, -⟩ := h
        subst h4
        simp [h1]
    | error e => simp [processToolCall, h1, hres] at h
  · by_cases h2 : tc.name = "HELP"
    · rcases hres : Help.call_tool env.run env.goal tc.params with ⟨res, cmds⟩
      cases res with
      | ok r =>
          simp [processToolCall, h1, h2, hres] at h
          obtain ⟨h4, -⟩ := h
          subst h4
          simp [h2]
      | error e => simp [processToolCall, h1, h2, hres] at h
    · simp [processToolCall, h1, h2] at h
      obtain ⟨h4, -⟩ := h
      subst h4
      simp

/-! ## Claim theorems -/

/-- C5: a successfully parsed response batch holding two (or more) `ToolCall`
messages makes `process_response` fail the session with a protocol-violation
`ApplicationError`, and neither tool is dispatched (the event trace holds
only prints). -/
theorem c5_parallel_toolcall_fatal (env : AgentEnv) (ms : List Message)
    (h : 2 ≤ countToolCalls ms) :
    ∃ s, (processResponse env (.ok ms)).2 = .fatal (.ApplicationError s) ∧
      (s = "Unexpected LLM response: parallel tool call is requested." ∨
       s = "Unexpected \"tool result\" message from LLM.") ∧
      ∀ e ∈ (processResponse env (.ok ms)).1, e.isPrint := by
  have hlen : 1 < ms.length := lt_of_lt_of_le h (countToolCalls_le_length ms)
  obtain ⟨s, h1, h2, h3⟩ := scanMessages_two_toolcalls ms none (by simpa using h)
  rcases hs : scanMessages ms Option.none with ⟨evs, r⟩
  rw [hs] at h1 h3
  dsimp at h1
  subst h1
  exact ⟨s, by simp [processResponse, hs, hlen], h2,
    by simpa [processResponse, hs, hlen] using h3⟩

/-- C5 witness: a concrete batch of exactly two tool calls. -/
theorem c5_parallel_toolcall_fatal_witness :
    2 ≤ countToolCalls [.toolCall ⟨"1", "SHELL", []⟩, .toolCall ⟨"2", "HELP", []⟩] ∧
    ∃ s, (processResponse envTest
        (.ok [.toolCall ⟨"1", "SHELL", []⟩, .toolCall ⟨"2", "HELP", []⟩])).2 =
        .fatal (.ApplicationError s) ∧
      (s = "Unexpected LLM response: parallel tool call is requested." ∨
       s = "Unexpected \"tool result\" message from LLM.") ∧
      ∀ e ∈ (processResponse envTest
          (.ok [.toolCall ⟨"1", "SHELL", []⟩, .toolCall ⟨"2", "HELP", []⟩])).1,
        e.isPrint :=
  ⟨by decide,
   c5_parallel_toolcall_fatal envTest
     [.toolCall ⟨"1", "SHELL", []⟩, .toolCall ⟨"2", "HELP", []⟩] (by decide)⟩

/-- C6: for a batch of one `Text` then one `ToolCall`, `process_response`
prints the text first, then dispatches the tool call, and the `ToolResult`
fed back as the next input carries the original call's `call_id` and
`name`. -/
theorem c6_text_then_toolcall (env : AgentEnv) (t : TextMsg) (tc : ToolCallMsg)
    (tr : ToolResultMsg) (tevs : List Event)
    (h : processToolCall env tc = (.ok tr, tevs)) :
    processResponse env (.ok [.text t, .toolCall tc]) =
      (Event.print t.message :: tevs, .nextMessage tr) ∧
    tr.call_id = tc.call_id ∧ tr.name = tc.name := by
  refine ⟨?_, processToolCall_ok_fields env tc tr tevs h⟩
  simp [processResponse, scanMessages, h]

/-- C6 witness: a concrete text-plus-SHELL-call batch with a declining
confirmation script; the fed-back `ToolResult` carries `call_id` `id1` and
name `SHELL`. -/
theorem c6_text_then_toolcall_witness :
    processToolCall envDecline ⟨"id1", "SHELL", [("command", .str "ls")]⟩ =
      (.ok ⟨"id1", "SHELL", "User cancelled the operation with the reason: busy"⟩,
       [.dispatch "SHELL"]) ∧
    processResponse envDecline
        (.ok [.text ⟨.model, "hello"⟩,
              .toolCall ⟨"id1", "SHELL", [("command", .str "ls")]⟩]) =
      (Event.print "hello" ::  [.dispatch "SHELL"],
       .nextMessage ⟨"id1", "SHELL",
         "User cancelled the operation with the reason: busy"⟩) :=
  ⟨rfl,
   (c6_text_then_toolcall envDecline ⟨.model, "hello"⟩
     ⟨"id1", "SHELL", [("command", .str "ls")]⟩
     ⟨"id1", "SHELL", "User cancelled the operation with the reason: busy"⟩
     [.dispatch "SHELL"] rfl).1⟩

/-- C1 counterexample: the claim says a transport failure from
`get_inference` is fatal; on the code, a transport failure
(`Error::LLMCallError`, wrapped as `AppError::LibError` at every call site)
is printed as a diagnostic and the session returns to awaiting user input. -/
theorem c1_transport_not_fatal_counterexample :
    processResponse envTest
        (.error (.LibError (.LLMCallError "connection refused"))) =
      ([.print "Incorrect argument value: Failed to call LLM: connection refused"],
       .awaitUser) := rfl

/-- C1 (amended): every `get_inference` failure reaches `process_response`
wrapped as `AppError::LibError` and is recoverable: the provider error
envelope (`LLMErrorMessage`) and the transport failure (`LLMCallError`) are
printed as diagnostics, any other library failure (malformed response) is
silently discarded, and in all cases the session returns to awaiting user
input; no library failure terminates the session. -/
theorem c1_lib_errors_recoverable (env : AgentEnv) (e : Apprentice.Error) :
    (processResponse env (.error (.LibError e))).2 = .awaitUser ∧
    (∀ ev ∈ (processResponse env (.error (.LibError e))).1, ev.isPrint) ∧
    (∀ m, e = .LLMErrorMessage m →
      (processResponse env (.error (.LibError e))).1 =
        [.print (AppError.display (.LibError (.LLMErrorMessage m)))]) ∧
    (∀ m, e = .LLMCallError m →
      (processResponse env (.error (.LibError e))).1 =
        [.print (AppError.display (.LibError (.LLMCallError m)))]) := by
  cases e <;> simp [processResponse, Event.isPrint]

/-- C1 witness: the provider-error envelope case at a concrete message. -/
theorem c1_lib_errors_recoverable_witness :
    (processResponse envTest
        (.error (.LibError (.LLMErrorMessage "rate limited")))).1 =
      [.print (AppError.display (.LibError (.LLMErrorMessage "rate limited")))] ∧
    (processResponse envTest
        (.error (.LibError (.LLMErrorMessage "rate limited")))).2 = .awaitUser :=
  ⟨(c1_lib_errors_recoverable envTest (.LLMErrorMessage "rate limited")).2.2.1
      "rate limited" rfl,
   (c1_lib_errors_recoverable envTest (.LLMErrorMessage "rate limited")).1⟩

/-- C2 counterexample: the claim says all three adapters always emit a
parallel-tool-calls-disabled directive; on the code, the OpenAI- and
Anthropic-shaped payloads for `ToolChoice::Auto` contain one, but the
GCP-shaped payload contains none anywhere in its JSON tree. -/
theorem c2_gcp_no_parallel_directive_counterexample :
    mentionsParallelDisable (.obj (chatOpenAI.prep_payload [] .auto).2) = true ∧
    mentionsParallelDisable (.obj (chatAnthropic.prep_payload [] .auto).2) = true ∧
    mentionsParallelDisable (.obj (chatGcp.prep_payload [] .auto).2) = false := by
  refine ⟨?_, ?_, ?_⟩ <;>
    simp [chatOpenAI, chatAnthropic, chatGcp, OpenAIChat.new, GcpChat.new,
      cfgOpenAI, cfgAnthropic, cfgGcp,
      OpenAIChat.prep_payload, OpenAIChat.prep_tool_use, OpenAIChat.add_tools,
      AnthropicChat.prep_payload, AnthropicChat.prep_tool_use,
      AnthropicChat.add_tools,
      GcpChat.prep_payload, GcpChat.prep_tool_use, GcpChat.add_tools,
      GcpChat.generationConfig,
      set_i64_param, set_f64_param, setKey,
      mentionsParallelDisable, mentionsParallelDisableFields,
      mentionsParallelDisableList]

/-- C2 (amended): for `ToolChoice` in `{Auto, CallOne, Force}`, the OpenAI-
and Anthropic-shaped payloads carry their vendor's
parallel-tool-calls-disabled directive (`parallel_tool_calls = false`,
respectively `disable_parallel_tool_use = true` inside `tool_choice`); the
GCP-shaped payload carries no parallel directive: it has no
`parallel_tool_calls` field and its `tool_config` directive mentions no
parallel-disable key. -/
theorem c2_parallel_directive (oc : OpenAIChat) (ac : AnthropicChat)
    (gc : GcpChat) (ms1 ms2 ms3 : List Message) (tc : ToolChoice)
    (h : tc ≠ .none) :
    lookupKey (oc.prep_payload ms1 tc).2 "parallel_tool_calls" =
      some (.bool false) ∧
    (∃ fields,
      lookupKey (ac.prep_payload ms2 tc).2 "tool_choice" = some (.obj fields) ∧
      lookupKey fields "disable_parallel_tool_use" = some (.bool true)) ∧
    lookupKey (gc.prep_payload ms3 tc).2 "parallel_tool_calls" = none ∧
    (∃ v, lookupKey (gc.prep_payload ms3 tc).2 "tool_config" = some v ∧
      mentionsParallelDisable v = false) := by
  refine ⟨?_, ?_, ?_, ?_⟩
  · cases tc <;>
      simp [OpenAIChat.prep_payload, OpenAIChat.prep_tool_use,
        OpenAIChat.add_tools, lookupKey_setKey]
  · cases tc with
    | none => exact absurd rfl h
    | auto =>
        refine ⟨[("type", .str "auto"), ("disable_parallel_tool_use", .bool true)],
          ?_, by simp [lookupKey]⟩
        simp [AnthropicChat.prep_payload, AnthropicChat.prep_tool_use,
          AnthropicChat.add_tools, lookupKey_setKey]
    | callOne =>
        refine ⟨[("type", .str "any"), ("disable_parallel_tool_use", .bool true)],
          ?_, by simp [lookupKey]⟩
        simp [AnthropicChat.prep_payload, AnthropicChat.prep_tool_use,
          AnthropicChat.add_tools, lookupKey_setKey]
    | force tool =>
        refine ⟨[("type", .str "tool"), ("name", .str tool),
          ("disable_parallel_tool_use", .bool true)], ?_, by simp [lookupKey]⟩
        simp [AnthropicChat.prep_payload, AnthropicChat.prep_tool_use,
          AnthropicChat.add_tools, lookupKey_setKey]
  · simp only [GcpChat.prep_payload]
    rw [gcp_prep_tool_use_lookup _ _ _ _ (by decide) (by decide)]
    cases gc.config.stop_sequence <;>
      simp [lookupKey_setKey, lookupKey]
  · cases tc with
    | none => exact absurd rfl h
    | auto =>
        refine ⟨.obj [("function_calling_config", .obj [("mode", .str "AUTO")])],
          ?_, ?_⟩
        · simp [GcpChat.prep_payload, GcpChat.prep_tool_use,
            GcpChat.add_tools, lookupKey_setKey]
        · simp [mentionsParallelDisable, mentionsParallelDisableFields,
            mentionsParallelDisableList]
    | callOne =>
        refine ⟨.obj [("function_calling_config", .obj [("mode", .str "ANY")])],
          ?_, ?_⟩
        · simp [GcpChat.prep_payload, GcpChat.prep_tool_use,
            GcpChat.add_tools, lookupKey_setKey]
        · simp [mentionsParallelDisable, mentionsParallelDisableFields,
            mentionsParallelDisableList]
    | force tool =>
        refine ⟨.obj [("function_calling_config", .obj
          [("mode", .str "ANY"),
           ("allowed_function_names", .arr [.str tool])])], ?_, ?_⟩
        · simp [GcpChat.prep_payload, GcpChat.prep_tool_use,
            GcpChat.add_tools, lookupKey_setKey]
        · simp [mentionsParallelDisable, mentionsParallelDisableFields,
            mentionsParallelDisableList]

/-- C2 witness: the `Auto` case over the concrete adapters. -/
theorem c2_parallel_directive_witness :
    lookupKey (chatOpenAI.prep_payload [] .auto).2 "parallel_tool_calls" =
      some (.bool false) ∧
    lookupKey (chatGcp.prep_payload [] .auto).2 "parallel_tool_calls" = none :=
  ⟨(c2_parallel_directive chatOpenAI chatAnthropic chatGcp [] [] [] .auto
      (fun hh => ToolChoice.noConfusion hh)).1,
   (c2_parallel_directive chatOpenAI chatAnthropic chatGcp [] [] [] .auto
      (fun hh => ToolChoice.noConfusion hh)).2.2.1⟩

/-- C4 counterexample: the claim says every adapter's payload includes a
sampling-parameter field iff that parameter is configured; on the code, the
OpenAI-shaped adapter never emits a top-k field (under either vendor
spelling), even when `top_k` is configured. -/
theorem c4_openai_topk_counterexample :
    cfgTopK.top_k = some 5 ∧
    (hasKey ((OpenAIChat.new cfgTopK []).prep_payload [] .none).2 "top_k" ||
     hasKey ((OpenAIChat.new cfgTopK []).prep_payload [] .none).2 "topK") =
      false :=
  ⟨rfl, rfl⟩

/-- C4 (amended): each adapter includes the sampling-parameter fields it
supports iff the parameter is configured (and, for floating-point
parameters, finite) — never null, never a default; parameters outside the
adapter's supported set (top_k for the OpenAI-shaped adapter; frequency and
presence penalty for the Anthropic-shaped adapter) are always omitted.  The
GCP-shaped adapter supports all seven, inside `generationConfig`. -/
theorem c4_sampling_params (oc : OpenAIChat) (ac : AnthropicChat) (gc : GcpChat)
    (cfg : Config) (ms1 ms2 ms3 : List Message) (tc1 tc2 tc3 : ToolChoice) :
    lookupKey (oc.prep_payload ms1 tc1).2 "temperature" =
      f64Field oc.config.temperature ∧
    lookupKey (oc.prep_payload ms1 tc1).2 "top_p" = f64Field oc.config.top_p ∧
    lookupKey (oc.prep_payload ms1 tc1).2 "frequency_penalty" =
      f64Field oc.config.frequency_penalty ∧
    lookupKey (oc.prep_payload ms1 tc1).2 "presence_penalty" =
      f64Field oc.config.presence_penalty ∧
    lookupKey (oc.prep_payload ms1 tc1).2 "n" = i64Field oc.config.n ∧
    lookupKey (oc.prep_payload ms1 tc1).2 "max_completion_tokens" =
      i64Field oc.config.max_tokens ∧
    lookupKey (oc.prep_payload ms1 tc1).2 "stop" =
      Option.map JVal.str oc.config.stop_sequence ∧
    lookupKey (oc.prep_payload ms1 tc1).2 "top_k" = none ∧
    lookupKey (oc.prep_payload ms1 tc1).2 "topK" = none ∧
    lookupKey (ac.prep_payload ms2 tc2).2 "max_tokens" =
      i64Field ac.config.max_tokens ∧
    lookupKey (ac.prep_payload ms2 tc2).2 "top_p" = f64Field ac.config.top_p ∧
    lookupKey (ac.prep_payload ms2 tc2).2 "top_k" = i64Field ac.config.top_k ∧
    lookupKey (ac.prep_payload ms2 tc2).2 "temperature" =
      f64Field ac.config.temperature ∧
    lookupKey (ac.prep_payload ms2 tc2).2 "stop_sequences" =
      Option.map (fun v => JVal.arr [JVal.str v]) ac.config.stop_sequence ∧
    lookupKey (ac.prep_payload ms2 tc2).2 "frequency_penalty" = none ∧
    lookupKey (ac.prep_payload ms2 tc2).2 "presence_penalty" = none ∧
    lookupKey (ac.prep_payload ms2 tc2).2 "frequencyPenalty" = none ∧
    lookupKey (ac.prep_payload ms2 tc2).2 "presencePenalty" = none ∧
    lookupKey (gc.prep_payload ms3 tc3).2 "generationConfig" =
      some (.obj (GcpChat.generationConfig gc.config)) ∧
    lookupKey (GcpChat.generationConfig cfg) "maxOutputTokens" =
      i64Field cfg.max_tokens ∧
    lookupKey (GcpChat.generationConfig cfg) "topP" = f64Field cfg.top_p ∧
    lookupKey (GcpChat.generationConfig cfg) "topK" = i64Field cfg.top_k ∧
    lookupKey (GcpChat.generationConfig cfg) "temperature" =
      f64Field cfg.temperature ∧
    lookupKey (GcpChat.generationConfig cfg) "presencePenalty" =
      f64Field cfg.presence_penalty ∧
    lookupKey (GcpChat.generationConfig cfg) "frequencyPenalty" =
      f64Field cfg.frequency_penalty ∧
    lookupKey (GcpChat.generationConfig cfg) "stopSequences" =
      Option.map (fun v => JVal.arr [JVal.str v]) cfg.stop_sequence := by
  have hO : ∀ k : String, k ≠ "tool_choice" → k ≠ "tools" →
      k ≠ "parallel_tool_calls" →
      lookupKey (oc.prep_payload ms1 tc1).2 k =
        lookupKey
          (match oc.config.stop_sequence with
           | some val =>
              setKey (set_i64_param (set_f64_param (set_f64_param
                (set_i64_param (set_f64_param (set_f64_param
                  (setKey [("model", JVal.str oc.config.name)] "messages"
                    (.arr (oc.history ++
                      ms1.filterMap (OpenAIChat.historyEntry oc.config.provider))))
                  "frequency_penalty" oc.config.frequency_penalty)
                  "presence_penalty" oc.config.presence_penalty)
                  "n" oc.config.n)
                  "top_p" oc.config.top_p)
                  "temperature" oc.config.temperature)
                  "max_completion_tokens" oc.config.max_tokens)
                "stop" (.str val)
           | Option.none =>
              set_i64_param (set_f64_param (set_f64_param
                (set_i64_param (set_f64_param (set_f64_param
                  (setKey [("model", JVal.str oc.config.name)] "messages"
                    (.arr (oc.history ++
                      ms1.filterMap (OpenAIChat.historyEntry oc.config.provider))))
                  "frequency_penalty" oc.config.frequency_penalty)
                  "presence_penalty" oc.config.presence_penalty)
                  "n" oc.config.n)
                  "top_p" oc.config.top_p)
                  "temperature" oc.config.temperature)
                  "max_completion_tokens" oc.config.max_tokens) k := by
    intro k h1 h2 h3
    simp only [OpenAIChat.prep_payload]
    rw [openai_prep_tool_use_lookup _ _ _ _ h1 h2 h3]
  have hA : ∀ k : String, k ≠ "tool_choice" → k ≠ "tools" →
      lookupKey (ac.prep_payload ms2 tc2).2 k =
        lookupKey
          (match ac.config.stop_sequence with
           | some val =>
              setKey (set_f64_param (set_i64_param (set_f64_param
                (set_i64_param
                  (setKey [("model", JVal.str ac.config.name),
                           ("system", JVal.str ac.system_prompt)] "messages"
                    (.arr (ac.history ++
                      ms2.filterMap (AnthropicChat.historyEntry ac.config.provider))))
                  "max_tokens" ac.config.max_tokens)
                  "top_p" ac.config.top_p)
                  "top_k" ac.config.top_k)
                  "temperature" ac.config.temperature)
                "stop_sequences" (.arr [.str val])
           | Option.none =>
              set_f64_param (set_i64_param (set_f64_param
                (set_i64_param
                  (setKey [("model", JVal.str ac.config.name),
                           ("system", JVal.str ac.system_prompt)] "messages"
                    (.arr (ac.history ++
                      ms2.filterMap (AnthropicChat.historyEntry ac.config.provider))))
                  "max_tokens" ac.config.max_tokens)
                  "top_p" ac.config.top_p)
                  "top_k" ac.config.top_k)
                  "temperature" ac.config.temperature) k := by
    intro k h1 h2
    simp only [AnthropicChat.prep_payload]
    rw [anthropic_prep_tool_use_lookup _ _ _ _ h1 h2]
  refine ⟨?_, ?_, ?_, ?_, ?_, ?_, ?_, ?_, ?_, ?_, ?_, ?_, ?_, ?_, ?_, ?_,
    ?_, ?_, ?_, ?_, ?_, ?_, ?_, ?_, ?_, ?_⟩
  · rw [hO _ (by decide) (by decide) (by decide)]
    cases oc.config.stop_sequence <;>
      simp [lookupKey_setKey, lookupKey_set_i64, lookupKey_set_f64, lookupKey,
        Option.or_none]
  · rw [hO _ (by decide) (by decide) (by decide)]
    cases oc.config.stop_sequence <;>
      simp [lookupKey_setKey, lookupKey_set_i64, lookupKey_set_f64, lookupKey,
        Option.or_none]
  · rw [hO _ (by decide) (by decide) (by decide)]
    cases oc.config.stop_sequence <;>
      simp [lookupKey_setKey, lookupKey_set_i64, lookupKey_set_f64, lookupKey,
        Option.or_none]
  · rw [hO _ (by decide) (by decide) (by decide)]
    cases oc.config.stop_sequence <;>
      simp [lookupKey_setKey, lookupKey_set_i64, lookupKey_set_f64, lookupKey,
        Option.or_none]
  · rw [hO _ (by decide) (by decide) (by decide)]
    cases oc.config.stop_sequence <;>
      simp [lookupKey_setKey, lookupKey_set_i64, lookupKey_set_f64, lookupKey,
        Option.or_none]
  · rw [hO _ (by decide) (by decide) (by decide)]
    cases oc.config.stop_sequence <;>
      simp [lookupKey_setKey, lookupKey_set_i64, lookupKey_set_f64, lookupKey,
        Option.or_none]
  · rw [hO _ (by decide) (by decide) (by decide)]
    cases oc.config.stop_sequence <;>
      simp [lookupKey_setKey, lookupKey_set_i64, lookupKey_set_f64, lookupKey,
        Option.or_none]
  · rw [hO _ (by decide) (by decide) (by decide)]
    cases oc.config.stop_sequence <;>
      simp [lookupKey_setKey, lookupKey_set_i64, lookupKey_set_f64, lookupKey,
        Option.or_none]
  · rw [hO _ (by decide) (by decide) (by decide)]
    cases oc.config.stop_sequence <;>
      simp [lookupKey_setKey, lookupKey_set_i64, lookupKey_set_f64, lookupKey,
        Option.or_none]
  · rw [hA _ (by decide) (by decide)]
    cases ac.config.stop_sequence <;>
      simp [lookupKey_setKey, lookupKey_set_i64, lookupKey_set_f64, lookupKey,
        Option.or_none]
  · rw [hA _ (by decide) (by decide)]
    cases ac.config.stop_sequence <;>
      simp [lookupKey_setKey, lookupKey_set_i64, lookupKey_set_f64, lookupKey,
        Option.or_none]
  · rw [hA _ (by decide) (by decide)]
    cases ac.config.stop_sequence <;>
      simp [lookupKey_setKey, lookupKey_set_i64, lookupKey_set_f64, lookupKey,
        Option.or_none]
  · rw [hA _ (by decide) (by decide)]
    cases ac.config.stop_sequence <;>
      simp [lookupKey_setKey, lookupKey_set_i64, lookupKey_set_f64, lookupKey,
        Option.or_none]
  · rw [hA _ (by decide) (by decide)]
    cases ac.config.stop_sequence <;>
      simp [lookupKey_setKey, lookupKey_set_i64, lookupKey_set_f64, lookupKey,
        Option.or_none]
  · rw [hA _ (by decide) (by decide)]
    cases ac.config.stop_sequence <;>
      simp [lookupKey_setKey, lookupKey_set_i64, lookupKey_set_f64, lookupKey,
        Option.or_none]
  · rw [hA _ (by decide) (by decide)]
    cases ac.config.stop_sequence <;>
      simp [lookupKey_setKey, lookupKey_set_i64, lookupKey_set_f64, lookupKey,
        Option.or_none]
  · rw [hA _ (by decide) (by decide)]
    cases ac.config.stop_sequence <;>
      simp [lookupKey_setKey, lookupKey_set_i64, lookupKey_set_f64, lookupKey,
        Option.or_none]
  · rw [hA _ (by decide) (by decide)]
    cases ac.config.stop_sequence <;>
      simp [lookupKey_setKey, lookupKey_set_i64, lookupKey_set_f64, lookupKey,
        Option.or_none]
  · simp only [GcpChat.prep_payload]
    rw [gcp_prep_tool_use_lookup _ _ _ _ (by decide) (by decide)]
    simp [lookupKey_setKey]
  · simp only [GcpChat.generationConfig]
    cases cfg.stop_sequence <;>
      simp [lookupKey_setKey, lookupKey_set_i64, lookupKey_set_f64, lookupKey,
        Option.or_none]
  · simp only [GcpChat.generationConfig]
    cases cfg.stop_sequence <;>
      simp [lookupKey_setKey, lookupKey_set_i64, lookupKey_set_f64, lookupKey,
        Option.or_none]
  · simp only [GcpChat.generationConfig]
    cases cfg.stop_sequence <;>
      simp [lookupKey_setKey, lookupKey_set_i64, lookupKey_set_f64, lookupKey,
        Option.or_none]
  · simp only [GcpChat.generationConfig]
    cases cfg.stop_sequence <;>
      simp [lookupKey_setKey, lookupKey_set_i64, lookupKey_set_f64, lookupKey,
        Option.or_none]
  · simp only [GcpChat.generationConfig]
    cases cfg.stop_sequence <;>
      simp [lookupKey_setKey, lookupKey_set_i64, lookupKey_set_f64, lookupKey,
        Option.or_none]
  · simp only [GcpChat.generationConfig]
    cases cfg.stop_sequence <;>
      simp [lookupKey_setKey, lookupKey_set_i64, lookupKey_set_f64, lookupKey,
        Option.or_none]
  · simp only [GcpChat.generationConfig]
    cases cfg.stop_sequence <;>
      simp [lookupKey_setKey, lookupKey_set_i64, lookupKey_set_f64, lookupKey,
        Option.or_none]

/-- C3 counterexample: the claim says that after an error-envelope response
the adapter's history equals the history before the call; on the code,
`prep_payload` appends the input messages to history before the transport
round-trip, so after the failed call the history has grown by the serialized
inputs (here: from `[]` to one entry). -/
theorem c3_history_grown_counterexample :
    (OpenAIChat.get_inference chatOpenAI parseStub
        [.text ⟨.user, "hi"⟩] .none (.ok errEnvelope)).2 =
      .error (.LLMErrorMessage "rate limited") ∧
    chatOpenAI.history = [] ∧
    (OpenAIChat.get_inference chatOpenAI parseStub
        [.text ⟨.user, "hi"⟩] .none (.ok errEnvelope)).1.history =
      [.obj [("role", .str "user"), ("content", .str "hi")]] ∧
    (OpenAIChat.get_inference chatOpenAI parseStub
        [.text ⟨.user, "hi"⟩] .none (.ok errEnvelope)).1.history ≠
      chatOpenAI.history := by
  refine ⟨rfl, rfl, rfl, fun hcontra => ?_⟩
  exact absurd (congrArg List.length hcontra) (by decide)

/-- C3 (amended): for every adapter, an error-envelope response
`{error:{message: m}}` makes `get_inference` return `LLMErrorMessage`
carrying exactly `m`, and the history after the call equals the history
before the call plus the vendor-serialized input messages; nothing from the
failed response is appended. -/
theorem c3_error_envelope (oc : OpenAIChat) (ac : AnthropicChat) (gc : GcpChat)
    (parse : String → Except Error JVal)
    (ms1 ms2 ms3 : List Message) (tc1 tc2 tc3 : ToolChoice)
    (response errv : JVal) (m : String)
    (h1 : response.getKey "error" = some errv)
    (h2 : (errv.idx "message").asStr = some m) :
    OpenAIChat.get_inference oc parse ms1 tc1 (.ok response) =
      ({ oc with history := oc.history ++
          ms1.filterMap (OpenAIChat.historyEntry oc.config.provider) },
       .error (.LLMErrorMessage m)) ∧
    AnthropicChat.get_inference ac ms2 tc2 (.ok response) =
      ({ ac with history := ac.history ++
          ms2.filterMap (AnthropicChat.historyEntry ac.config.provider) },
       .error (.LLMErrorMessage m)) ∧
    GcpChat.get_inference gc ms3 tc3 (.ok response) =
      ({ gc with history := gc.history ++
          ms3.filterMap (GcpChat.historyEntry gc.config.provider) },
       .error (.LLMErrorMessage m)) := by
  have hc : check_for_error response = .error (.LLMErrorMessage m) := by
    simp [check_for_error, h1, h2]
  refine ⟨?_, ?_, ?_⟩
  · simp [OpenAIChat.get_inference, OpenAIChat.prep_payload,
      OpenAIChat.process_response, hc]
  · simp [AnthropicChat.get_inference, AnthropicChat.prep_payload,
      AnthropicChat.process_response, hc]
  · simp [GcpChat.get_inference, GcpChat.prep_payload,
      GcpChat.process_response, hc]

/-- C3 witness: the concrete envelope `{error:{message:"rate limited"}}`
with one text input on the OpenAI-shaped adapter. -/
theorem c3_error_envelope_witness :
    OpenAIChat.get_inference chatOpenAI parseStub
        [.text ⟨.user, "hi"⟩] .none (.ok errEnvelope) =
      ({ chatOpenAI with history := chatOpenAI.history ++
          [.obj [("role", .str "user"), ("content", .str "hi")]] },
       .error (.LLMErrorMessage "rate limited")) := by
  have h := (c3_error_envelope chatOpenAI chatAnthropic chatGcp parseStub
    [.text ⟨.user, "hi"⟩] [] [] .none .none .none errEnvelope
    (.obj [("message", .str "rate limited")]) "rate limited" rfl rfl).1
  exact h

/-- C7: if the Shell tool's confirmation prompt receives the single character
`n` and then a free-text reason, the tool returns `Ok` with a result string
containing that reason, and the command-execution collaborator is never
invoked (the execution trace is empty). -/
theorem c7_shell_decline (run : String → SpawnResult) (command reason : String)
    (rest : List String) :
    Shell.exec run command ("n" :: reason :: rest) =
      (.ok ("User cancelled the operation with the reason: " ++ reason),
       rest, []) ∧
    ∃ p q, "User cancelled the operation with the reason: " ++ reason =
      p ++ reason ++ q :=
  ⟨rfl, "User cancelled the operation with the reason: ", "", by simp⟩

/-- C8: the Anthropic-shaped adapter's constructor fails immediately (before
any network interaction) with a `MissingArgError` when the API version tag or
the max-tokens limit is absent, and succeeds when both are present. -/
theorem c8_anthropic_construction (config : Config) (tools : List ToolSpec) :
    (config.api_version.isSome ∧ config.max_tokens.isSome →
      ∃ chat, AnthropicChat.new config tools = .ok chat) ∧
    (config.api_version.isNone ∨ config.max_tokens.isNone →
      ∃ msg, AnthropicChat.new config tools = .error (.MissingArgError msg)) := by
  constructor
  · rintro ⟨h1, h2⟩
    refine ⟨⟨"", [], config, tools⟩, ?_⟩
    simp [AnthropicChat.new, Option.isNone_iff_eq_none,
      Option.ne_none_iff_isSome.mpr h1, Option.ne_none_iff_isSome.mpr h2]
  · intro h
    rcases hv : config.api_version with _ | v
    · exact ⟨"api-version is mandatory for anthropic.", by
        simp [AnthropicChat.new, hv]⟩
    · rcases hm : config.max_tokens with _ | m
      · exact ⟨"max-tokens is mandatory for anthropic.", by
          simp [AnthropicChat.new, hv, hm]⟩
      · rcases h with h | h <;> simp [hv, hm] at h

/-- C8 witness: construction succeeds on a complete configuration and fails
with `MissingArgError` when either required field is removed. -/
theorem c8_anthropic_construction_witness :
    (∃ chat, AnthropicChat.new cfgAnthropic [] = .ok chat) ∧
    (∃ msg, AnthropicChat.new { cfgAnthropic with api_version := none } [] =
      .error (.MissingArgError msg)) ∧
    (∃ msg, AnthropicChat.new { cfgAnthropic with max_tokens := none } [] =
      .error (.MissingArgError msg)) :=
  ⟨(c8_anthropic_construction cfgAnthropic []).1 ⟨rfl, rfl⟩,
   (c8_anthropic_construction { cfgAnthropic with api_version := none } []).2
     (Or.inl rfl),
   (c8_anthropic_construction { cfgAnthropic with max_tokens := none } []).2
     (Or.inr rfl)⟩

/-- C9: for the ToolSpec parameters `[{a, Integer, required},
{b, String, optional}]`, the schema builder yields `required = ["a"]` and a
`properties` object holding exactly the entries `a` and `b`, in declaration
order, for every provider. -/
theorem c9_schema_builder (provider : ModelProvider) (descA descB : String) :
    (tool_params_to_value
        [⟨"a", descA, .integer, true⟩, ⟨"b", descB, .string, false⟩]
        provider).getKey "required" = some (.arr [.str "a"]) ∧
    ∃ props,
      (tool_params_to_value
          [⟨"a", descA, .integer, true⟩, ⟨"b", descB, .string, false⟩]
          provider).getKey "properties" = some (.obj props) ∧
      props.map Prod.fst = ["a", "b"] := by
  cases provider <;> exact ⟨rfl, _, rfl, rfl⟩

/-- C10: the tool result string built by `exec_pipe` is exactly the captured
stdout and stderr in the `STDOUT:/STDERR:` form; the child's exit status is
awaited but discarded, so any exit code (zero or not) yields the same `Ok`
result. -/
theorem c10_exec_pipe_ignores_exit (run : String → SpawnResult)
    (command stdout stderr : String) (code : Int)
    (h : run command = .ok stdout stderr code) :
    exec_pipe run command =
      .ok ("STDOUT:\n" ++ stdout ++ "\nSTDERR:\n" ++ stderr) ∧
    ∀ run2 code2, run2 command = .ok stdout stderr code2 →
      exec_pipe run2 command = exec_pipe run command := by
  refine ⟨by simp [exec_pipe, h], fun run2 code2 h2 => ?_⟩
  simp [exec_pipe, h, h2]

/-- C10 witness: a command exiting with status 7 still yields the formatted
`Ok` result, equal to what a zero exit status yields. -/
theorem c10_exec_pipe_ignores_exit_witness :
    exec_pipe (fun _ => SpawnResult.ok "out" "err" 7) "ls" =
      .ok ("STDOUT:\n" ++ "out" ++ "\nSTDERR:\n" ++ "err") ∧
    exec_pipe (fun _ => SpawnResult.ok "out" "err" 0) "ls" =
      exec_pipe (fun _ => SpawnResult.ok "out" "err" 7) "ls" :=
  ⟨(c10_exec_pipe_ignores_exit (fun _ => SpawnResult.ok "out" "err" 7)
      "ls" "out" "err" 7 rfl).1,
   (c10_exec_pipe_ignores_exit (fun _ => SpawnResult.ok "out" "err" 7)
      "ls" "out" "err" 7 rfl).2 (fun _ => SpawnResult.ok "out" "err" 0) 0 rfl⟩

end Apprentice
